import Mathlib

/-!
Verification of the realleads-ai command-orchestration pipeline.

This file is a shallow embedding, in Lean 4, of the orchestrator / parser /
executor core of the repository:

* `backend/src/executor/actions/create-lead.ts` (segment auto-detection,
  required-field gate),
* the `update_lead` action (HNW auto-tag / auto-untag block),
* `backend/src/executor/validators.ts` (per-action Zod parameter schemas,
  phone normalisation),
* `backend/src/executor/index.ts` (`executeActions`, chaining, per-action
  failure isolation, dispatch),
* `backend/src/orchestrator/parser.ts` (two-variant response contract),
* the orchestrator entry point (`orchestrate`: context precondition, single
  retry on format failures).

External collaborators (the Postgres persistence layer, the LLM provider,
message senders) are modelled as explicit oracle parameters; JavaScript
numbers appearing in the embedded schemas are modelled as `Int` (every value
the claims exercise is integral); JSON texts are modelled at the level of the
parsed JSON tree, `JSON.parse` being a platform builtin outside the
repository's code.
-/

namespace RealLeads

/-! ## Segments and the HNW invariant

From `backend/src/executor/actions/create-lead.ts` and the `update_lead`
action handler. -/

/-- `HNW_THRESHOLD = 3_000_000` ($3M), from `create-lead.ts` and the
`update_lead` handler. -/
def HNW_THRESHOLD : Int := 3000000

/-- The protected segment tag. -/
def hnwTag : String := "High Net Worth"

/-- `detectSegments` from `create-lead.ts` (lines 203–218): copies the
incoming `segments` (or `[]`), then pushes `'High Net Worth'` when
`params.budget_max` is truthy and strictly above the threshold and the tag is
not already present. -/
def detectSegments (segments : Option (List String)) (budget_max : Option Int) :
    List String :=
  let segs := segments.getD []
  match budget_max with
  | none => segs
  | some b =>
    if b ≠ 0 ∧ HNW_THRESHOLD < b then
      if hnwTag ∈ segs then segs else segs ++ [hnwTag]
    else segs

/-- The HNW auto-tag / auto-untag block of `updateLeadAction` (the
`update_lead` handler, lines 412–429 as cited): runs only when
`updates.budget_max !== undefined`; reads `updates.segments || []`; above the
threshold it appends the tag if absent; at or below the threshold it filters
the tag out if the payload's segments carry it; otherwise it leaves
`updates.segments` untouched. -/
def hnwAdjustSegments (budget_max : Option Int) (segments : Option (List String)) :
    Option (List String) :=
  match budget_max with
  | none => segments
  | some b =>
    let segs := segments.getD []
    if HNW_THRESHOLD < b ∧ hnwTag ∉ segs then some (segs ++ [hnwTag])
    else if b ≤ HNW_THRESHOLD ∧ hnwTag ∈ segs then some (segs.filter (· ≠ hnwTag))
    else segments

/-- `updateLead` in `db/queries.ts` builds its `SET` clause only from the
fields present in the patch: an absent `segments` field leaves the stored
segment set unchanged. -/
def applySegmentsPatch (leadSegments : List String) (patch : Option (List String)) :
    List String :=
  patch.getD leadSegments

/-- The segment set stored for a lead after `updateLeadAction` runs with the
given `budget_max` and `segments` parameters against a lead whose stored
segments are `leadSegments`: the HNW adjustment is applied to the payload,
then the patch semantics of `updateLead`. -/
def updateLeadStoredSegments (leadSegments : List String) (budget_max : Option Int)
    (segments : Option (List String)) : List String :=
  applySegmentsPatch leadSegments (hnwAdjustSegments budget_max segments)

theorem hnwTag_not_mem_filter (l : List String) :
    hnwTag ∉ l.filter (· ≠ hnwTag) := by
  simp [List.mem_filter]

/-- C2: for `create_lead`, a validated `budget_max` strictly above 3,000,000
always yields segments containing `'High Net Worth'`, and at or below the
threshold the tag is never auto-added (it appears iff the caller supplied it);
for `update_lead`, `budget_max` above the threshold forces the tag into the
stored segments, and at or below the threshold the stored segments carry the
tag only when it survives from the untouched stored set. -/
theorem hnw_threshold_exclusive (segs leadSegs : List String) (b : Int)
    (segs? : Option (List String)) :
    (HNW_THRESHOLD < b →
      hnwTag ∈ detectSegments (some segs) (some b) ∧
      hnwTag ∈ updateLeadStoredSegments leadSegs (some b) segs?) ∧
    (b ≤ HNW_THRESHOLD →
      ((hnwTag ∈ detectSegments (some segs) (some b)) ↔ hnwTag ∈ segs) ∧
      ((hnwTag ∈ updateLeadStoredSegments leadSegs (some b) segs?) ↔
        (segs? = none ∧ hnwTag ∈ leadSegs))) := by
  constructor
  · intro hb
    have hb0 : b ≠ 0 := by
      intro h; rw [h] at hb; exact absurd hb (by decide)
    constructor
    · simp only [detectSegments, Option.getD_some]
      rw [if_pos ⟨hb0, hb⟩]
      by_cases h : hnwTag ∈ segs
      · rw [if_pos h]; exact h
      · simp [h]
    · simp only [updateLeadStoredSegments, hnwAdjustSegments, applySegmentsPatch]
      by_cases h : hnwTag ∈ segs?.getD []
      · have hnot : ¬ (HNW_THRESHOLD < b ∧ hnwTag ∉ segs?.getD []) := by
          intro hc; exact hc.2 h
        have hle : ¬ (b ≤ HNW_THRESHOLD ∧ hnwTag ∈ segs?.getD []) := by
          intro hc; exact absurd hb (not_lt.mpr hc.1)
        rw [if_neg hnot, if_neg hle]
        cases segs? with
        | none => simp at h
        | some ss => simp only [Option.getD_some] at h ⊢; exact h
      · rw [if_pos ⟨hb, h⟩]
        simp
  · intro hb
    have hb' : ¬ HNW_THRESHOLD < b := not_lt.mpr hb
    constructor
    · simp only [detectSegments]
      by_cases h0 : b = 0
      · simp [h0]
      · rw [if_neg (by intro hc; exact hb' hc.2)]
        simp
    · simp only [updateLeadStoredSegments, hnwAdjustSegments, applySegmentsPatch]
      rw [if_neg (by intro hc; exact hb' hc.1)]
      by_cases h : hnwTag ∈ segs?.getD []
      · rw [if_pos ⟨hb, h⟩]
        simp only [Option.getD_some]
        constructor
        · intro hmem; exact absurd hmem (hnwTag_not_mem_filter _)
        · rintro ⟨hnone, _⟩
          subst hnone; simp at h
      · rw [if_neg (by intro hc; exact h hc.2)]
        cases segs? with
        | none => simp
        | some ss =>
          simp only [Option.getD_some] at h ⊢
          constructor
          · intro hmem; exact absurd hmem h
          · rintro ⟨hnone, _⟩; cases hnone

/-- Witness for C2 at the concrete boundary budgets 3,000,001 and 3,000,000. -/
theorem hnw_threshold_exclusive_witness :
    hnwTag ∈ detectSegments (some []) (some 3000001) ∧
    (hnwTag ∈ detectSegments (some []) (some 3000000) ↔ hnwTag ∈ ([] : List String)) :=
  ⟨((hnw_threshold_exclusive [] [] 3000001 none).1 (by decide)).1,
   ((hnw_threshold_exclusive [] [] 3000000 none).2 (by decide)).1⟩

/-- C3 counterexample: a lead stored with the auto-added `'High Net Worth'`
tag, updated with `budget_max = 2,000,000` and no `segments` in the payload,
still carries the tag after the update — the claim says the tag is removed. -/
theorem hnw_untag_skips_absent_segments_counterexample :
    hnwTag ∈ updateLeadStoredSegments [hnwTag] (some 2000000) none := by decide

/-- C3 (amended): an `update_lead` that lowers `budget_max` to or below the
threshold removes the tag only when the update payload itself lists segments
carrying it; when the payload omits `segments`, the stored segment set — tag
included — is left untouched. -/
theorem hnw_untag_only_with_payload_segments (leadSegs ss : List String) (b : Int)
    (hb : b ≤ HNW_THRESHOLD) :
    (hnwTag ∈ ss → hnwTag ∉ updateLeadStoredSegments leadSegs (some b) (some ss)) ∧
    updateLeadStoredSegments leadSegs (some b) none = leadSegs := by
  have hb' : ¬ HNW_THRESHOLD < b := not_lt.mpr hb
  constructor
  · intro hss
    simp only [updateLeadStoredSegments, hnwAdjustSegments, applySegmentsPatch,
      Option.getD_some]
    rw [if_neg (by intro hc; exact hb' hc.1), if_pos ⟨hb, hss⟩]
    exact hnwTag_not_mem_filter _
  · simp only [updateLeadStoredSegments, hnwAdjustSegments, applySegmentsPatch,
      Option.getD_none]
    rw [if_neg (by intro hc; exact hb' hc.1), if_neg (by intro hc; simp at hc)]
    rfl

/-- Witness for the amended C3 at a concrete lead and payload. -/
theorem hnw_untag_only_with_payload_segments_witness :
    (hnwTag ∈ [hnwTag] →
      hnwTag ∉ updateLeadStoredSegments [hnwTag] (some 3000000) (some [hnwTag])) ∧
    updateLeadStoredSegments [hnwTag] (some 3000000) none = [hnwTag] :=
  hnw_untag_only_with_payload_segments [hnwTag] [hnwTag] 3000000 (by decide)

/-! ## Parameter validators

From `backend/src/executor/validators.ts`. Each action type has a Zod schema;
`validateActionParams` dispatches on the action type. The parameter bag is
modelled as a structure of optional fields at their schema types (Zod's
type-level failures on mistyped values are outside what the claims exercise);
JavaScript numbers are modelled as `Int`. Zod object parsing strips unknown
keys, so each schema's output lists exactly the schema's own keys. -/

/-- `phoneSchema`'s first transform: strip every non-digit character
(`val.replace` of non-digits with the empty string). -/
def digitsOnly (s : String) : String := ⟨s.data.filter Char.isDigit⟩

/-- `phoneSchema`'s final transform: `xxx-xxx-xxxx` from the 10-digit string
(`slice(0,3)-slice(3,6)-slice(6,10)`). -/
def formatPhone (d : String) : String :=
  ⟨d.data.take 3 ++ '-' :: ((d.data.drop 3).take 3 ++ '-' :: (d.data.drop 6).take 4)⟩

/-- `phoneSchema`: transform to digits, refine to exactly 10 digits, then
format. -/
def phoneSchemaParse (s : String) : Except String String :=
  let d := digitsOnly s
  if d.length = 10 then .ok (formatPhone d)
  else .error "Phone number must be exactly 10 digits (including area code)"

/-- The `.refine` step of `emailSchema`: the first `'@'` sits at a positive
index and a `'.'` occurs at or after it (the `'@'` itself is not a `'.'`, so
`indexOf('.', atIndex) > atIndex` reduces to a dot occurring from that index
on). Zod's base `z.string().email()` regex is the validation library's own
code — a collaborator boundary — so the embedded check is the refinement the
source adds. -/
def emailSchemaAccepts (s : String) : Bool :=
  match s.data.findIdx? (· = '@') with
  | none => false
  | some i => decide (0 < i) && (s.data.drop i).contains '.'

/-- Hex digit test for the UUID shape check. -/
def isHexDigit (c : Char) : Bool :=
  c.isDigit || ('a' ≤ c && c ≤ 'f') || ('A' ≤ c && c ≤ 'F')

/-- Split a character list at `'-'` (the grouping underlying the UUID
regex). -/
def splitDash : List Char → List (List Char)
  | [] => [[]]
  | c :: rest =>
    let r := splitDash rest
    if c = '-' then [] :: r
    else
      match r with
      | [] => [[c]]
      | g :: gs => (c :: g) :: gs

/-- `z.string().uuid()`: the hyphenated 8-4-4-4-12 hex shape. -/
def isUuid (s : String) : Bool :=
  match splitDash s.data with
  | [a, b, c, d, e] =>
    a.length = 8 && b.length = 4 && c.length = 4 && d.length = 4 &&
      e.length = 12 && (a ++ b ++ c ++ d ++ e).all isHexDigit
  | _ => false

/-- The untyped action parameter bag (`Record<string, any>`), restricted to
the keys the embedded schemas inspect; absence is `none`. -/
structure Params where
  first_name : Option String := none
  last_name : Option String := none
  email : Option String := none
  phone : Option String := none
  property_address : Option String := none
  neighborhood : Option String := none
  beds : Option Int := none
  baths : Option Int := none
  price_range : Option String := none
  budget_min : Option Int := none
  budget_max : Option Int := none
  source : Option String := none
  status : Option String := none
  segments : Option (List String) := none
  tags : Option (List String) := none
  notes : Option String := none
  lead_id : Option String := none
  search : Option String := none
  limit : Option Int := none
  offset : Option Int := none
  channel : Option String := none
  tone : Option String := none
  message_body : Option String := none
  requires_approval : Option Bool := none
  subject : Option String := none
  body : Option String := none
  content : Option String := none
  content_type : Option String := none
  target_segments : Option (List String) := none
  send_immediately : Option Bool := none
deriving Repr, DecidableEq

/-- A required string key (Zod reports `Required` when the key is absent). -/
def requireStr (v : Option String) : Except String String :=
  match v with
  | some s => .ok s
  | none => .error "Required"

/-- `z.string().min(1)`. -/
def strMin1 (s : String) : Except String String :=
  if 1 ≤ s.length then .ok s else .error "String must contain at least 1 character(s)"

/-- An optional key: absent passes untouched, present runs the check. -/
def optCheck {α : Type} (v : Option α) (f : α → Except String α) :
    Except String (Option α) :=
  match v with
  | none => .ok none
  | some x => (f x).map some

/-- `z.number().positive()` (and `.int()` is inherent to the `Int` model). -/
def numPositive (n : Int) : Except String Int :=
  if 0 < n then .ok n else .error "Number must be greater than 0"

/-- `z.number().int().positive().max(m)`. -/
def numPositiveMax (m n : Int) : Except String Int :=
  if 0 < n ∧ n ≤ m then .ok n
  else .error "Number must be greater than 0 and at most the maximum"

/-- `z.number().int().nonnegative()`. -/
def numNonneg (n : Int) : Except String Int :=
  if 0 ≤ n then .ok n else .error "Number must be greater than or equal to 0"

/-- A string restricted to a Zod enum. -/
def enumCheck (allowed : List String) (s : String) : Except String String :=
  if s ∈ allowed then .ok s else .error "Invalid enum value"

/-- The `emailSchema` as used inside the object schemas. -/
def emailCheck (s : String) : Except String String :=
  if emailSchemaAccepts s then .ok s else .error "Invalid email format"

/-- `z.string().uuid('Invalid lead ID format')`. -/
def uuidCheck (s : String) : Except String String :=
  if isUuid s then .ok s else .error "Invalid lead ID format"

/-- A required `lead_id` that must be a UUID. -/
def requireLeadId (v : Option String) : Except String String :=
  requireStr v >>= uuidCheck

/-- A required nonempty string key. -/
def requireMin1 (v : Option String) : Except String String :=
  requireStr v >>= strMin1

/-- A required boolean key. -/
def requireBool (v : Option Bool) : Except String Bool :=
  match v with
  | some b => .ok b
  | none => .error "Required"

/-- The lead status enum of the schemas. -/
def statusEnum : List String := ["New", "Nurture", "Hot", "Closed", "Lost"]

/-- `CreateLeadSchema.parse`. -/
def createLeadSchemaParse (p : Params) : Except String Params := do
  let fn ← requireStr p.first_name >>= strMin1
  let em ← optCheck p.email emailCheck
  let ph ← optCheck p.phone phoneSchemaParse
  let bd ← optCheck p.beds numPositive
  let bt ← optCheck p.baths numPositive
  let bmin ← optCheck p.budget_min numPositive
  let bmax ← optCheck p.budget_max numPositive
  let st ← optCheck p.status (enumCheck statusEnum)
  pure { first_name := some fn, last_name := p.last_name, email := em, phone := ph,
         property_address := p.property_address, neighborhood := p.neighborhood,
         beds := bd, baths := bt, price_range := p.price_range,
         budget_min := bmin, budget_max := bmax, source := p.source, status := st,
         segments := p.segments, tags := p.tags, notes := p.notes }

/-- `UpdateLeadSchema.parse` (note: the update schema carries no
`budget_min` key, so Zod's unknown-key stripping drops one). -/
def updateLeadSchemaParse (p : Params) : Except String Params := do
  let lid ← requireLeadId p.lead_id
  let fn ← optCheck p.first_name strMin1
  let em ← optCheck p.email emailCheck
  let ph ← optCheck p.phone phoneSchemaParse
  let bd ← optCheck p.beds numPositive
  let bt ← optCheck p.baths numPositive
  let bmax ← optCheck p.budget_max numPositive
  let st ← optCheck p.status (enumCheck statusEnum)
  pure { lead_id := some lid, first_name := fn, last_name := p.last_name,
         email := em, phone := ph, property_address := p.property_address,
         neighborhood := p.neighborhood, beds := bd, baths := bt,
         price_range := p.price_range, budget_max := bmax, source := p.source,
         status := st, segments := p.segments, tags := p.tags, notes := p.notes }

/-- `GetLeadsSchema.parse`. -/
def getLeadsSchemaParse (p : Params) : Except String Params := do
  let st ← optCheck p.status (enumCheck statusEnum)
  let lim ← optCheck p.limit (numPositiveMax 100)
  let off ← optCheck p.offset numNonneg
  pure { status := st, segments := p.segments, tags := p.tags, email := p.email,
         phone := p.phone, neighborhood := p.neighborhood, search := p.search,
         limit := lim, offset := off }

/-- `GetCommunicationsSchema.parse`. -/
def getCommunicationsSchemaParse (p : Params) : Except String Params := do
  let lid ← requireLeadId p.lead_id
  let ch ← optCheck p.channel (enumCheck ["email", "sms", "whatsapp", "phone"])
  let lim ← optCheck p.limit (numPositiveMax 100)
  pure { lead_id := some lid, channel := ch, limit := lim }

/-- `DraftInitialFollowupSchema.parse`. -/
def draftInitialFollowupSchemaParse (p : Params) : Except String Params := do
  let lid ← requireLeadId p.lead_id
  let tn ← optCheck p.tone (enumCheck ["professional", "casual", "warm"])
  pure { lead_id := some lid, tone := tn }

/-- `CreatePendingMessageSchema.parse`. -/
def createPendingMessageSchemaParse (p : Params) : Except String Params := do
  let lid ← requireLeadId p.lead_id
  let ch ← requireStr p.channel >>= enumCheck ["email", "sms", "whatsapp"]
  let mb ← requireMin1 p.message_body
  let ra ← requireBool p.requires_approval
  pure { lead_id := some lid, channel := some ch, message_body := some mb,
         requires_approval := some ra }

/-- `SendSmsSchema.parse`. -/
def sendSmsSchemaParse (p : Params) : Except String Params := do
  let lid ← requireLeadId p.lead_id
  let mb ← requireMin1 p.message_body
  pure { lead_id := some lid, message_body := some mb }

/-- `SendWhatsAppSchema.parse`. -/
def sendWhatsAppSchemaParse (p : Params) : Except String Params := do
  let lid ← requireLeadId p.lead_id
  let mb ← requireMin1 p.message_body
  pure { lead_id := some lid, message_body := some mb }

/-- `SendEmailSchema.parse`. -/
def sendEmailSchemaParse (p : Params) : Except String Params := do
  let lid ← requireLeadId p.lead_id
  let sj ← requireMin1 p.subject
  let bd ← requireMin1 p.body
  pure { lead_id := some lid, subject := some sj, body := some bd }

/-- `IngestContentSchema.parse`. -/
def ingestContentSchemaParse (p : Params) : Except String Params := do
  let c ← requireMin1 p.content
  let ct ← optCheck p.content_type
    (enumCheck ["listing", "market_report", "newsletter", "other"])
  pure { content := some c, content_type := ct }

/-- `SummarizeContentForSegmentsSchema.parse`. -/
def summarizeContentForSegmentsSchemaParse (p : Params) : Except String Params := do
  let c ← requireMin1 p.content
  let segs ← match p.segments with
    | some (x :: xs) => Except.ok (x :: xs)
    | some [] => Except.error "At least one segment required"
    | none => Except.error "Required"
  pure { content := some c, segments := some segs }

/-- `StageCampaignFromContentSchema.parse`. -/
def stageCampaignFromContentSchemaParse (p : Params) : Except String Params := do
  let c ← requireMin1 p.content
  pure { content := some c, target_segments := p.target_segments,
         send_immediately := p.send_immediately }

/-- The closed action-type enum (`ActionTypeSchema` in the parser,
`validateActionParams`'s switch in the validators). -/
inductive ActionType where
  | create_lead
  | get_leads
  | update_lead
  | get_communications
  | draft_initial_followup
  | create_pending_message
  | send_sms
  | send_whatsapp
  | send_email
  | ingest_content
  | summarize_content_for_segments
  | stage_campaign_from_content
deriving Repr, DecidableEq

/-- The wire name of each action type. -/
def actionTypeName : ActionType → String
  | .create_lead => "create_lead"
  | .get_leads => "get_leads"
  | .update_lead => "update_lead"
  | .get_communications => "get_communications"
  | .draft_initial_followup => "draft_initial_followup"
  | .create_pending_message => "create_pending_message"
  | .send_sms => "send_sms"
  | .send_whatsapp => "send_whatsapp"
  | .send_email => "send_email"
  | .ingest_content => "ingest_content"
  | .summarize_content_for_segments => "summarize_content_for_segments"
  | .stage_campaign_from_content => "stage_campaign_from_content"

/-- The per-type schema dispatch of `validateActionParams`. -/
def actionSchemaParse : ActionType → Params → Except String Params
  | .create_lead, p => createLeadSchemaParse p
  | .get_leads, p => getLeadsSchemaParse p
  | .update_lead, p => updateLeadSchemaParse p
  | .get_communications, p => getCommunicationsSchemaParse p
  | .draft_initial_followup, p => draftInitialFollowupSchemaParse p
  | .create_pending_message, p => createPendingMessageSchemaParse p
  | .send_sms, p => sendSmsSchemaParse p
  | .send_whatsapp, p => sendWhatsAppSchemaParse p
  | .send_email, p => sendEmailSchemaParse p
  | .ingest_content, p => ingestContentSchemaParse p
  | .summarize_content_for_segments, p => summarizeContentForSegmentsSchemaParse p
  | .stage_campaign_from_content, p => stageCampaignFromContentSchemaParse p

/-- `validateActionParams`: runs the schema for the action type and wraps a
Zod failure into `Parameter validation failed for <type>: ...`. -/
def validateActionParams (t : ActionType) (p : Params) : Except String Params :=
  (actionSchemaParse t p).mapError
    (fun m => "Parameter validation failed for " ++ actionTypeName t ++ ": " ++ m)

/-- `validateRequiredFields` from the backend `create-lead.ts` (lines
184–191): the only business gate is at least one contact method; validated
emails and phones are never the empty string, so JavaScript falsiness
coincides with key absence here. -/
def validateRequiredFieldsCheck (p : Params) : Except String Unit :=
  if p.email = none ∧ p.phone = none then
    .error "Lead must have at least one contact method (email or phone)"
  else .ok ()

/-- The validation stage of `createLeadAction`: `CreateLeadSchema.parse`
followed by `validateRequiredFields`; a thrown `ValidationError` aborts the
action before `createLead` touches the database. -/
def createLeadGate (p : Params) : Except String Params :=
  match createLeadSchemaParse p with
  | .error e => .error e
  | .ok v =>
    match validateRequiredFieldsCheck v with
    | .error e => .error e
    | .ok _ => .ok v

/-! ## Claims C10 and C4: phone normalisation and the required-field gate -/

theorem strEq (s t : String) (h : s.data = t.data) : s = t := by
  cases s; cases t; exact congrArg String.mk h

theorem digitsOnly_all_digits (s : String) :
    ∀ c ∈ (digitsOnly s).data, c.isDigit = true := by
  intro c hc
  exact (List.mem_filter.mp hc).2

theorem digitsOnly_formatPhone (d : String)
    (hd : ∀ c ∈ d.data, c.isDigit = true) (hlen : d.data.length = 10) :
    digitsOnly (formatPhone d) = d := by
  apply strEq
  show (formatPhone d).data.filter Char.isDigit = d.data
  have hfilter : ∀ l : List Char, (∀ c ∈ l, c ∈ d.data) →
      l.filter Char.isDigit = l := by
    intro l hl
    exact List.filter_eq_self.mpr (fun c hc => hd c (hl c hc))
  have h1 : (d.data.take 3).filter Char.isDigit = d.data.take 3 :=
    hfilter _ (fun c hc => List.mem_of_mem_take hc)
  have h2 : ((d.data.drop 3).take 3).filter Char.isDigit = (d.data.drop 3).take 3 :=
    hfilter _ (fun c hc => List.mem_of_mem_drop (List.mem_of_mem_take hc))
  have h3 : ((d.data.drop 6).take 4).filter Char.isDigit = (d.data.drop 6).take 4 :=
    hfilter _ (fun c hc => List.mem_of_mem_drop (List.mem_of_mem_take hc))
  show (d.data.take 3 ++ '-' :: ((d.data.drop 3).take 3 ++ '-' ::
      (d.data.drop 6).take 4)).filter Char.isDigit = d.data
  rw [List.filter_append, List.filter_cons_of_neg, List.filter_append,
    List.filter_cons_of_neg, h1, h2, h3]
  · have h64 : (d.data.drop 6).take 4 = d.data.drop 6 :=
      List.take_of_length_le (by rw [List.length_drop, hlen])
    have h66 : (d.data.drop 3).drop 3 = d.data.drop 6 := by
      rw [List.drop_drop]
    rw [h64, ← h66, List.take_append_drop, List.take_append_drop]
  · decide
  · decide

theorem phoneSchemaParse_ok_iff (s out : String) :
    phoneSchemaParse s = .ok out ↔
      ((digitsOnly s).length = 10 ∧ out = formatPhone (digitsOnly s)) := by
  unfold phoneSchemaParse
  by_cases h : (digitsOnly s).length = 10 <;> simp [h, eq_comm]

theorem bindOk {α β : Type} (x : Except String α) (f : α → Except String β) (b : β) :
    (x >>= f) = .ok b ↔ ∃ a, x = .ok a ∧ f a = .ok b := by
  cases x <;> simp [Bind.bind, Except.bind]

theorem optCheck_some_ok {α : Type} (x : α) (f : α → Except String α) (w : Option α)
    (h : optCheck (some x) f = .ok w) : ∃ y, f x = .ok y ∧ w = some y := by
  simp only [optCheck] at h
  cases hf : f x with
  | error e => rw [hf] at h; simp [Except.map] at h
  | ok y =>
    rw [hf] at h
    simp only [Except.map, Except.ok.injEq] at h
    exact ⟨y, rfl, h.symm⟩

theorem createLeadSchemaParse_phone (p v : Params) (ph : String)
    (hv : createLeadSchemaParse p = .ok v) (hph : p.phone = some ph) :
    (digitsOnly ph).length = 10 ∧ v.phone = some (formatPhone (digitsOnly ph)) := by
  simp only [createLeadSchemaParse, bindOk, pure, Except.pure, Except.ok.injEq] at hv
  obtain ⟨fn, _, em, _, ph', hph', bd, _, bt, _, bmin, _, bmax, _, st, _, hveq⟩ := hv
  rw [hph] at hph'
  obtain ⟨out, hout, hw⟩ := optCheck_some_ok ph phoneSchemaParse ph' hph'
  obtain ⟨h10, hfmt⟩ := (phoneSchemaParse_ok_iff ph out).mp hout
  subst hveq hw hfmt
  exact ⟨h10, rfl⟩

theorem updateLeadSchemaParse_phone (p v : Params) (ph : String)
    (hv : updateLeadSchemaParse p = .ok v) (hph : p.phone = some ph) :
    (digitsOnly ph).length = 10 ∧ v.phone = some (formatPhone (digitsOnly ph)) := by
  simp only [updateLeadSchemaParse, bindOk, pure, Except.pure, Except.ok.injEq] at hv
  obtain ⟨lid, _, fn, _, em, _, ph', hph', bd, _, bt, _, bmax, _, st, _, hveq⟩ := hv
  rw [hph] at hph'
  obtain ⟨out, hout, hw⟩ := optCheck_some_ok ph phoneSchemaParse ph' hph'
  obtain ⟨h10, hfmt⟩ := (phoneSchemaParse_ok_iff ph out).mp hout
  subst hveq hw hfmt
  exact ⟨h10, rfl⟩

/-- C10: a `phone` parameter of `create_lead` or `update_lead` passes
validation iff stripping non-digits leaves exactly 10 digits; every accepted
phone is normalised to `xxx-xxx-xxxx` (the digits survive unchanged and
re-validation is a no-op) before any handler or database code sees it; a
phone whose digit count differs from 10 fails the whole parameter
validation for that action. -/
theorem phone_ten_digit_normalization (s ph : String) (p : Params) :
    ((phoneSchemaParse s).isOk = true ↔ (digitsOnly s).length = 10) ∧
    (∀ out, phoneSchemaParse s = .ok out →
      out = formatPhone (digitsOnly s) ∧ digitsOnly out = digitsOnly s ∧
      phoneSchemaParse out = .ok out) ∧
    (∀ v, createLeadSchemaParse p = .ok v → p.phone = some ph →
      (digitsOnly ph).length = 10 ∧ v.phone = some (formatPhone (digitsOnly ph))) ∧
    (∀ v, updateLeadSchemaParse p = .ok v → p.phone = some ph →
      (digitsOnly ph).length = 10 ∧ v.phone = some (formatPhone (digitsOnly ph))) ∧
    (p.phone = some ph → (digitsOnly ph).length ≠ 10 →
      (createLeadSchemaParse p).isOk = false ∧ (updateLeadSchemaParse p).isOk = false) := by
  refine ⟨?_, ?_, ?_, ?_, ?_⟩
  · unfold phoneSchemaParse
    by_cases h : (digitsOnly s).length = 10 <;> simp [h, Except.isOk, Except.toBool]
  · intro out hout
    obtain ⟨h10, hfmt⟩ := (phoneSchemaParse_ok_iff s out).mp hout
    have hdig : digitsOnly out = digitsOnly s := by
      rw [hfmt]
      exact digitsOnly_formatPhone (digitsOnly s) (digitsOnly_all_digits s) h10
    refine ⟨hfmt, hdig, ?_⟩
    rw [phoneSchemaParse_ok_iff]
    exact ⟨by rw [hdig]; exact h10, by rw [hdig, ← hfmt]⟩
  · exact fun v hv hph => createLeadSchemaParse_phone p v ph hv hph
  · exact fun v hv hph => updateLeadSchemaParse_phone p v ph hv hph
  · intro hph hne
    constructor
    · cases hcl : createLeadSchemaParse p with
      | error e => simp [Except.isOk, Except.toBool]
      | ok v => exact absurd (createLeadSchemaParse_phone p v ph hcl hph).1 hne
    · cases hup : updateLeadSchemaParse p with
      | error e => simp [Except.isOk, Except.toBool]
      | ok v => exact absurd (updateLeadSchemaParse_phone p v ph hup hph).1 hne

/-- Witness for C10: the phone `(555) 123-4567` is accepted and normalised
to `555-123-4567`, which re-validates to itself. -/
theorem phone_ten_digit_normalization_witness :
    "555-123-4567" = formatPhone (digitsOnly "(555) 123-4567") ∧
    digitsOnly "555-123-4567" = digitsOnly "(555) 123-4567" ∧
    phoneSchemaParse "555-123-4567" = .ok "555-123-4567" :=
  (phone_ten_digit_normalization "(555) 123-4567" "" {}).2.1 "555-123-4567" (by rfl)

/-- A concrete `create_lead` parameter set carrying a name and an email but
no property descriptor and no budget signal. -/
def johnParams : Params :=
  { first_name := some "John", email := some "john@example.com" }

/-- C4 counterexample: `createLeadAction`'s validation accepts parameters
with a name and one contact channel even though every property descriptor
(address, neighborhood+beds+baths) and every budget signal (budget ceiling,
price range) is absent — the claim says such parameter sets must fail with
`ValidationError`. -/
theorem create_lead_gate_missing_property_counterexample :
    createLeadGate johnParams = .ok johnParams ∧
    johnParams.property_address = none ∧ johnParams.neighborhood = none ∧
    johnParams.budget_max = none ∧ johnParams.price_range = none :=
  ⟨by rfl, rfl, rfl, rfl, rfl⟩

/-- C4 (amended): the required-field gate of `createLeadAction` enforces only
a nonempty first name (via the schema) and at least one contact channel:
given schema-valid parameters, the gate succeeds iff an email or a phone is
present, and with both contact channels absent it fails with the
`ValidationError` message — property descriptors and budget signals are not
gated. -/
theorem create_lead_gate_contact_only (p v : Params)
    (hv : createLeadSchemaParse p = .ok v) :
    (createLeadGate p = .ok v ↔ (v.email ≠ none ∨ v.phone ≠ none)) ∧
    (v.email = none → v.phone = none →
      createLeadGate p =
        .error "Lead must have at least one contact method (email or phone)") := by
  unfold createLeadGate
  rw [hv]
  unfold validateRequiredFieldsCheck
  by_cases he : v.email = none <;> by_cases hp : v.phone = none <;>
    simp [he, hp]

/-- Witness for the amended C4 at the concrete contact-only parameters. -/
theorem create_lead_gate_contact_only_witness :
    (createLeadGate johnParams = .ok johnParams ↔
      (johnParams.email ≠ none ∨ johnParams.phone ≠ none)) ∧
    (johnParams.email = none → johnParams.phone = none →
      createLeadGate johnParams =
        .error "Lead must have at least one contact method (email or phone)") :=
  create_lead_gate_contact_only johnParams johnParams (by rfl)

/-! ## Executor

From `backend/src/executor/index.ts`: `executeActions` iterates the action
list in order, applies the one-step-back chaining rule for `update_lead`,
validates, dispatches, and turns any thrown error into a failed
`ActionResult` for that action only. The three implemented handlers
(`create_lead`, `get_leads`, `update_lead`) are collaborator calls, modelled
as an explicit environment; every other case of the dispatch switch throws
`<type> action not yet implemented`. -/

/-- A stored lead as the executor's chaining code reads it
(`previousResult.data.leads[0].id`). -/
structure LeadRec where
  id : String
  segments : List String := []
deriving Repr, DecidableEq

/-- A handler's return value (`{ success, message, leads? }`); `leads` is
populated by `get_leads`. -/
structure HandlerData where
  success : Bool
  message : String := ""
  leads : List LeadRec := []
deriving Repr, DecidableEq

/-- `ActionResult` from `executor/index.ts`. -/
structure ActionResult where
  success : Bool
  actionType : String
  data : Option HandlerData := none
  message : String
  error : Option String := none
deriving Repr, DecidableEq

/-- An `Action` as the executor receives it from the parser. -/
structure Action where
  type : ActionType
  params : Params
deriving Repr, DecidableEq

/-- `ExecutionContext` (`agentId` required at the type level in the source,
but never checked by `executeActions`). -/
structure ExecutionContext where
  agentId : String
  userId : Option String := none
  timezone : Option String := none
deriving Repr, DecidableEq

/-- The collaborator handlers behind the three implemented actions; a
`.error` models a thrown exception. -/
structure HandlerEnv where
  createLead : Params → String → Except String HandlerData
  getLeads : Params → String → Except String HandlerData
  updateLead : Params → String → Except String HandlerData

/-- The `switch (action.type)` of `executeSingleAction`: three implemented
handlers, every other recognised type throws `not yet implemented`. -/
def dispatchAction (env : HandlerEnv) (ctx : ExecutionContext) (t : ActionType)
    (v : Params) : Except String HandlerData :=
  match t with
  | .create_lead => env.createLead v ctx.agentId
  | .get_leads => env.getLeads v ctx.agentId
  | .update_lead => env.updateLead v ctx.agentId
  | other => .error (actionTypeName other ++ " action not yet implemented")

/-- `executeSingleAction`: validate, dispatch, wrap the handler result
(`success: result.success !== false`, `message: result.message || default`);
a `.error` models the re-thrown exception. -/
def executeSingleAction (env : HandlerEnv) (ctx : ExecutionContext) (a : Action) :
    Except String ActionResult :=
  match validateActionParams a.type a.params with
  | .error e => .error e
  | .ok v =>
    match dispatchAction env ctx a.type v with
    | .error e => .error e
    | .ok hd =>
      .ok { success := hd.success, actionType := actionTypeName a.type,
            data := some hd,
            message := if hd.message = "" then
                actionTypeName a.type ++ " completed successfully"
              else hd.message }

/-- JavaScript `String.prototype.includes`. -/
def strIncludes (s pat : String) : Bool :=
  (List.range (s.data.length + 1)).any (fun i => pat.data.isPrefixOf (s.data.drop i))

/-- The chaining trigger on `action.params.lead_id`: absent, falsy (empty),
or a placeholder containing `\x7b\x7b` or `from_`. -/
def leadIdNeedsInjection (v : Option String) : Bool :=
  match v with
  | none => true
  | some s => s = "" || strIncludes s "\x7b\x7b" || strIncludes s "from_"

/-- The chaining block of `executeActions` (lines 111–127): only when the
current action is `update_lead` and the immediately preceding result is a
`get_leads` with a non-empty `leads` list does the executor inject the first
lead's id into a missing/placeholder `lead_id`. -/
def chainAction (prev : Option ActionResult) (a : Action) : Action :=
  match prev with
  | none => a
  | some p =>
    if a.type = .update_lead ∧ p.actionType = "get_leads" then
      match (p.data.map HandlerData.leads).getD [] with
      | [] => a
      | l :: _ =>
        if leadIdNeedsInjection a.params.lead_id then
          { a with params := { a.params with lead_id := some l.id } }
        else a
    else a

/-- The per-action `try`/`catch` of `executeActions`: a thrown error becomes
a failed result for that action. -/
def runOne (env : HandlerEnv) (ctx : ExecutionContext) (a : Action) : ActionResult :=
  match executeSingleAction env ctx a with
  | .ok r => r
  | .error e =>
    { success := false, actionType := actionTypeName a.type,
      message := "Failed to execute " ++ actionTypeName a.type, error := some e }

/-- The main loop of `executeActions`, carrying the immediately preceding
result for the chaining rule. -/
def executeLoop (env : HandlerEnv) (ctx : ExecutionContext) :
    Option ActionResult → List Action → List ActionResult
  | _, [] => []
  | prev, a :: rest =>
    let r := runOne env ctx (chainAction prev a)
    r :: executeLoop env ctx (some r) rest

/-- `ExecutionResult` from `executor/index.ts`. -/
structure ExecutionResult where
  success : Bool
  results : List ActionResult
  summary : String
deriving Repr, DecidableEq

/-- The summary sentence built after the loop. -/
def buildSummary (results : List ActionResult) (allSucceeded : Bool) : String :=
  let n := results.length
  let k := (results.filter ActionResult.success).length
  if allSucceeded then
    "Successfully executed " ++ toString n ++ " action" ++ (if n = 1 then "" else "s")
  else
    "Executed " ++ toString n ++ " actions: " ++ toString k ++ " succeeded, " ++
      toString (n - k) ++ " failed"

/-- `executeActions`: the source accumulates `allSucceeded` across the loop,
which equals `results.all success`. No context precondition is checked. -/
def executeActions (env : HandlerEnv) (actions : List Action)
    (ctx : ExecutionContext) : ExecutionResult :=
  let results := executeLoop env ctx none actions
  let allSucceeded := results.all ActionResult.success
  { success := allSucceeded, results := results,
    summary := buildSummary results allSucceeded }

theorem executeSingleAction_actionType (env : HandlerEnv) (ctx : ExecutionContext)
    (a : Action) (r : ActionResult) (h : executeSingleAction env ctx a = .ok r) :
    r.actionType = actionTypeName a.type := by
  unfold executeSingleAction at h
  cases hv : validateActionParams a.type a.params with
  | error e => rw [hv] at h; cases h
  | ok v =>
    rw [hv] at h
    dsimp only at h
    cases hd : dispatchAction env ctx a.type v with
    | error e => rw [hd] at h; cases h
    | ok d => rw [hd] at h; dsimp only at h; cases h; rfl

theorem runOne_actionType (env : HandlerEnv) (ctx : ExecutionContext) (a : Action) :
    (runOne env ctx a).actionType = actionTypeName a.type := by
  unfold runOne
  cases h : executeSingleAction env ctx a with
  | error e => rfl
  | ok r => exact executeSingleAction_actionType env ctx a r h

theorem chainAction_type (prev : Option ActionResult) (a : Action) :
    (chainAction prev a).type = a.type := by
  unfold chainAction
  cases prev with
  | none => rfl
  | some p =>
    dsimp only
    split
    · split
      · rfl
      · split <;> rfl
    · rfl

theorem executeLoop_actionTypes (env : HandlerEnv) (ctx : ExecutionContext)
    (actions : List Action) :
    ∀ prev, (executeLoop env ctx prev actions).map ActionResult.actionType =
      actions.map (fun a => actionTypeName a.type) := by
  induction actions with
  | nil => intro prev; rfl
  | cons a rest ih =>
    intro prev
    simp only [executeLoop, List.map_cons, ih]
    rw [runOne_actionType, chainAction_type]

/-- C5 counterexample: `executeActions` performs no context precondition
check — with an empty `agentId` nothing fails before the actions run; here a
`get_leads` action still executes and succeeds, refuting that a missing
actor id is fatal before any action runs. -/
theorem executor_no_context_precondition_counterexample :
    (executeActions
      ⟨fun _ _ => .ok { success := true, message := "created" },
       fun _ _ => .ok { success := true, message := "found", leads := [] },
       fun _ _ => .ok { success := true, message := "updated" }⟩
      [⟨.get_leads, {}⟩] { agentId := "" }).results.length = 1 ∧
    (executeActions
      ⟨fun _ _ => .ok { success := true, message := "created" },
       fun _ _ => .ok { success := true, message := "found", leads := [] },
       fun _ _ => .ok { success := true, message := "updated" }⟩
      [⟨.get_leads, {}⟩] { agentId := "" }).success = true := by
  constructor <;> rfl

/-- C5 (amended): `executeActions` never throws for an individual action's
validation or handler failure: for every environment, action list and
context — no context precondition exists — it returns exactly one result per
submitted action, in submission order (result *i* reports action *i*'s
type), with the overall success flag true iff every result succeeded. -/
theorem executor_batch_isolation (env : HandlerEnv) (actions : List Action)
    (ctx : ExecutionContext) :
    (executeActions env actions ctx).results.length = actions.length ∧
    (executeActions env actions ctx).results.map ActionResult.actionType =
      actions.map (fun a => actionTypeName a.type) ∧
    ((executeActions env actions ctx).success = true ↔
      ∀ r ∈ (executeActions env actions ctx).results, r.success = true) := by
  refine ⟨?_, ?_, ?_⟩
  · have h := executeLoop_actionTypes env ctx actions none
    have := congrArg List.length h
    simpa [executeActions] using this
  · exact executeLoop_actionTypes env ctx actions none
  · simp only [executeActions]
    exact List.all_eq_true

/-- The `get_leads` result of the spec's chaining example: two leads found. -/
def foundLeadsResult : ActionResult :=
  { success := true, actionType := "get_leads",
    data := some { success := true, message := "Found 2 leads",
                   leads := [{ id := "L1" }, { id := "L2" }] },
    message := "Found 2 leads" }

/-- C6 counterexample: immediately after a `get_leads` that returned a
non-empty list, a `get_communications` action — a type whose schema requires
an entity id — with an absent `lead_id` is NOT rewritten: the executor's
chaining applies only to `update_lead`, so the claim's quantification over
every id-accepting action type fails. -/
theorem chaining_only_update_lead_counterexample :
    leadIdNeedsInjection ({} : Params).lead_id = true ∧
    (chainAction (some foundLeadsResult)
      ⟨.get_communications, {}⟩).params.lead_id = none := by
  constructor <;> rfl

/-- C6 (amended): when the immediately preceding result is a `get_leads`
returning a non-empty list and the current action is an `update_lead` whose
`lead_id` is absent or a placeholder, the executor injects the id of the
first returned lead into the parameters before validation (the rewritten
action is what `runOne` — validation included — receives). -/
theorem chaining_injects_first_found_lead (env : HandlerEnv)
    (ctx : ExecutionContext) (p1 p2 v : Params) (hd : HandlerData)
    (l1 : LeadRec) (rest : List LeadRec)
    (hvalid : validateActionParams .get_leads p1 = .ok v)
    (hget : env.getLeads v ctx.agentId = .ok hd)
    (hleads : hd.leads = l1 :: rest)
    (hneed : leadIdNeedsInjection p2.lead_id = true) :
    (executeActions env [⟨.get_leads, p1⟩, ⟨.update_lead, p2⟩] ctx).results =
      [runOne env ctx ⟨.get_leads, p1⟩,
       runOne env ctx ⟨.update_lead, { p2 with lead_id := some l1.id }⟩] := by
  have r1eq : runOne env ctx ⟨.get_leads, p1⟩ =
      { success := hd.success, actionType := "get_leads", data := some hd,
        message := if hd.message = "" then "get_leads completed successfully"
          else hd.message } := by
    unfold runOne executeSingleAction dispatchAction
    dsimp only
    rw [hvalid]
    dsimp only
    rw [hget]
    rfl
  have hchain : chainAction (some (runOne env ctx ⟨.get_leads, p1⟩))
      ⟨.update_lead, p2⟩ = ⟨.update_lead, { p2 with lead_id := some l1.id }⟩ := by
    rw [r1eq]
    unfold chainAction
    dsimp only
    rw [if_pos ⟨rfl, rfl⟩,
      show (Option.map HandlerData.leads (some hd)).getD [] = hd.leads from rfl,
      hleads]
    dsimp only
    rw [if_pos hneed]
  have h1 : chainAction none (⟨.get_leads, p1⟩ : Action) = ⟨.get_leads, p1⟩ := rfl
  show executeLoop env ctx none [⟨.get_leads, p1⟩, ⟨.update_lead, p2⟩] = _
  simp only [executeLoop, h1, hchain]

/-- A concrete environment whose `get_leads` returns the spec example
`[{id: "L1"}, {id: "L2"}]`. -/
def chainWitnessEnv : HandlerEnv :=
  { createLead := fun _ _ => .ok { success := true },
    getLeads := fun _ _ =>
      .ok { success := true, message := "Found 2 leads",
            leads := [{ id := "L1" }, { id := "L2" }] },
    updateLead := fun _ _ => .ok { success := true, message := "updated" } }

/-- Witness for the amended C6: `get_leads` returning L1 and L2 followed by
an `update_lead` with no `lead_id` targets `"L1"`. -/
theorem chaining_injects_first_found_lead_witness :
    (executeActions chainWitnessEnv
      [⟨.get_leads, {}⟩, ⟨.update_lead, {}⟩] { agentId := "agent-1" }).results =
      [runOne chainWitnessEnv { agentId := "agent-1" } ⟨.get_leads, {}⟩,
       runOne chainWitnessEnv { agentId := "agent-1" }
         ⟨.update_lead, { lead_id := some "L1" }⟩] :=
  chaining_injects_first_found_lead chainWitnessEnv { agentId := "agent-1" }
    {} {} {} { success := true, message := "Found 2 leads",
               leads := [{ id := "L1" }, { id := "L2" }] }
    { id := "L1" } [{ id := "L2" }] (by rfl) (by rfl) (by rfl) (by rfl)

theorem dispatch_send_not_implemented (env : HandlerEnv) (ctx : ExecutionContext)
    (v : Params) (t : ActionType)
    (ht : t = .send_sms ∨ t = .send_whatsapp ∨ t = .send_email) :
    dispatchAction env ctx t v =
      .error (actionTypeName t ++ " action not yet implemented") := by
  rcases ht with h | h | h <;> subst h <;> rfl

/-- C1 (amended): the executor never dispatches `send_sms`, `send_whatsapp`
or `send_email` to any collaborator for any lead — protected or not: these
cases of the dispatch switch throw `not yet implemented`, so the result is a
failure that is independent of the whole collaborator environment and
context, and no redirect to the pending-message path occurs (the result
carries the not-implemented error whenever validation passed). -/
theorem send_actions_never_dispatch (env env' : HandlerEnv)
    (ctx ctx' : ExecutionContext) (a : Action)
    (hsend : a.type = .send_sms ∨ a.type = .send_whatsapp ∨ a.type = .send_email) :
    (runOne env ctx a).success = false ∧
    runOne env ctx a = runOne env' ctx' a ∧
    (∀ v, validateActionParams a.type a.params = .ok v →
      (runOne env ctx a).error =
        some (actionTypeName a.type ++ " action not yet implemented")) := by
  obtain ⟨t, p⟩ := a
  dsimp only at hsend ⊢
  cases hv : validateActionParams t p with
  | error e =>
    have h1 : ∀ (e₀ : HandlerEnv) (c₀ : ExecutionContext),
        runOne e₀ c₀ ⟨t, p⟩ =
          { success := false, actionType := actionTypeName t,
            message := "Failed to execute " ++ actionTypeName t,
            error := some e } := by
      intro e₀ c₀
      unfold runOne executeSingleAction
      dsimp only
      rw [hv]
    refine ⟨by rw [h1], by rw [h1, h1], ?_⟩
    intro v hvv
    exact absurd hvv (by simp)
  | ok v0 =>
    have h1 : ∀ (e₀ : HandlerEnv) (c₀ : ExecutionContext),
        runOne e₀ c₀ ⟨t, p⟩ =
          { success := false, actionType := actionTypeName t,
            message := "Failed to execute " ++ actionTypeName t,
            error := some (actionTypeName t ++ " action not yet implemented") } := by
      intro e₀ c₀
      unfold runOne executeSingleAction
      dsimp only
      rw [hv]
      dsimp only
      rw [dispatch_send_not_implemented e₀ c₀ v0 t hsend]
    exact ⟨by rw [h1], by rw [h1, h1], fun v hvv => by rw [h1]⟩

/-- A store holding a protected (High Net Worth) lead behind the three
implemented handlers. -/
def hnwStoreEnv : HandlerEnv :=
  { createLead := fun _ _ => .ok { success := true },
    getLeads := fun _ _ =>
      .ok { success := true, message := "found",
            leads := [{ id := "12345678-1234-1234-1234-123456789abc",
                        segments := ["High Net Worth"] }] },
    updateLead := fun _ _ => .ok { success := true } }

/-- Valid `send_sms` parameters targeting the protected lead of
`hnwStoreEnv`. -/
def sendSmsParams : Params :=
  { lead_id := some "12345678-1234-1234-1234-123456789abc",
    message_body := some "hi" }

/-- C1 counterexample: a `send_sms` aimed at the stored High-Net-Worth lead
is not routed to the pending-message (approval-queued) path — the executor
produces a plain failed result with a `not yet implemented` error; no
`create_pending_message` invocation exists on this code path, so the claimed
redirect does not happen. -/
theorem send_sms_not_redirected_counterexample :
    runOne hnwStoreEnv { agentId := "agent-1" } ⟨.send_sms, sendSmsParams⟩ =
      { success := false, actionType := "send_sms",
        message := "Failed to execute send_sms",
        error := some "send_sms action not yet implemented" } := by rfl

/-- Witness for the amended C1 at the concrete protected-lead scenario. -/
theorem send_actions_never_dispatch_witness :
    (runOne hnwStoreEnv { agentId := "agent-1" }
      ⟨.send_sms, sendSmsParams⟩).success = false ∧
    runOne hnwStoreEnv { agentId := "agent-1" } ⟨.send_sms, sendSmsParams⟩ =
      runOne chainWitnessEnv { agentId := "agent-2" } ⟨.send_sms, sendSmsParams⟩ ∧
    (runOne hnwStoreEnv { agentId := "agent-1" }
      ⟨.send_sms, sendSmsParams⟩).error =
        some "send_sms action not yet implemented" :=
  have h := send_actions_never_dispatch hnwStoreEnv chainWitnessEnv
    { agentId := "agent-1" } { agentId := "agent-2" }
    ⟨.send_sms, sendSmsParams⟩ (Or.inl rfl)
  ⟨h.1, h.2.1, h.2.2 sendSmsParams (by rfl)⟩

/-! ## Orchestrator response parser

From `backend/src/orchestrator/parser.ts`. The parser receives raw model
text, strips an optional code fence, runs `JSON.parse` (a platform builtin —
the boundary of this embedding) and validates the resulting JSON tree
against the discriminated union of `ClarificationResponseSchema` and
`ExecuteResponseSchema`. The validation is embedded here on the parsed JSON
tree. -/

/-- A parsed JSON value (`JSON.parse` output). -/
inductive Json where
  | null
  | bool (b : Bool)
  | num (n : Int)
  | str (s : String)
  | arr (items : List Json)
  | obj (fields : List (String × Json))

/-- Object property lookup. -/
def lookupField : List (String × Json) → String → Option Json
  | [], _ => none
  | (k, v) :: rest, key => if k = key then some v else lookupField rest key

/-- Property access on a JSON value. -/
def Json.getField : Json → String → Option Json
  | .obj fields, key => lookupField fields key
  | _, _ => none

/-- `z.string()` on a required object key. -/
def getStr (j : Json) (key : String) : Except String String :=
  match j.getField key with
  | some (.str s) => .ok s
  | some _ => .error (key ++ ": Expected string")
  | none => .error (key ++ ": Required")

/-- Elementwise `z.string()` over an array. -/
def strListOf : List Json → Except String (List String)
  | [] => .ok []
  | .str s :: rest => (strListOf rest).map (s :: ·)
  | _ :: _ => .error "Expected string"

/-- `z.array(z.string())` on a required object key. -/
def getStrList (j : Json) (key : String) : Except String (List String) :=
  match j.getField key with
  | some (.arr items) => strListOf items
  | some _ => .error (key ++ ": Expected array")
  | none => .error (key ++ ": Required")

/-- The `render` enum of the UI hints. -/
def renderEnum : List String := ["table", "cards", "graph", "notice"]

/-- The wire-name-to-enum mapping of `ActionTypeSchema`. -/
def actionTypeOfString (s : String) : Option ActionType :=
  match s with
  | "create_lead" => some .create_lead
  | "get_leads" => some .get_leads
  | "update_lead" => some .update_lead
  | "get_communications" => some .get_communications
  | "draft_initial_followup" => some .draft_initial_followup
  | "create_pending_message" => some .create_pending_message
  | "send_sms" => some .send_sms
  | "send_whatsapp" => some .send_whatsapp
  | "send_email" => some .send_email
  | "ingest_content" => some .ingest_content
  | "summarize_content_for_segments" => some .summarize_content_for_segments
  | "stage_campaign_from_content" => some .stage_campaign_from_content
  | _ => none

/-- An action's optional `ui` block (both fields optional). -/
structure ParsedUi where
  render : Option String := none
  summary : Option String := none

/-- A schema-checked action of `ActionSchema`: enum type, object params,
optional UI hint. -/
structure ParsedAction where
  type : ActionType
  params : List (String × Json)
  ui : ParsedUi := {}

/-- The optional per-action `ui` object of `ActionSchema`. -/
def parseActionUi (fields : List (String × Json)) : Except String ParsedUi := do
  let r ← match lookupField fields "ui" with
    | none => Except.ok ({} : ParsedUi)
    | some (.obj uf) => do
      let render ← match lookupField uf "render" with
        | none => Except.ok (none : Option String)
        | some (.str s) =>
          if s ∈ renderEnum then Except.ok (some s)
          else Except.error "ui.render: Invalid enum value"
        | some _ => Except.error "ui.render: Expected string"
      let summary ← match lookupField uf "summary" with
        | none => Except.ok (none : Option String)
        | some (.str s) => Except.ok (some s)
        | some _ => Except.error "ui.summary: Expected string"
      Except.ok { render := render, summary := summary }
    | some _ => Except.error "ui: Expected object"
  pure r

/-- `ActionSchema.parse` on one element of the `actions` array. -/
def parseAction (j : Json) : Except String ParsedAction :=
  match j with
  | .obj fields => do
    let tstr ← match lookupField fields "type" with
      | some (.str s) => Except.ok s
      | some _ => Except.error "type: Expected string"
      | none => Except.error "type: Required"
    let t ← match actionTypeOfString tstr with
      | some t => Except.ok t
      | none => Except.error "type: Invalid enum value"
    let ps ← match lookupField fields "params" with
      | some (.obj pf) => Except.ok pf
      | some _ => Except.error "params: Expected object"
      | none => Except.error "params: Required"
    let ui ← parseActionUi fields
    pure { type := t, params := ps, ui := ui }
  | _ => .error "Expected object"

/-- Elementwise `ActionSchema` over the `actions` array. -/
def parseActions : List Json → Except String (List ParsedAction)
  | [] => .ok []
  | j :: rest => do
    let a ← parseAction j
    let as ← parseActions rest
    pure (a :: as)

/-- The required `ui` of `ExecuteResponseSchema`: `render` from the enum and
a `summary` string, both required. -/
structure ExecUi where
  render : String
  summary : String

/-- Parse the execute variant's required `ui` key. -/
def parseExecUi (j : Json) : Except String ExecUi :=
  match j.getField "ui" with
  | some (.obj uf) => do
    let r ← match lookupField uf "render" with
      | some (.str s) =>
        if s ∈ renderEnum then Except.ok s
        else Except.error "ui.render: Invalid enum value"
      | some _ => Except.error "ui.render: Expected string"
      | none => Except.error "ui.render: Required"
    let s ← match lookupField uf "summary" with
      | some (.str s) => Except.ok s
      | some _ => Except.error "ui.summary: Expected string"
      | none => Except.error "ui.summary: Required"
    pure { render := r, summary := s }
  | some _ => .error "ui: Expected object"
  | none => .error "ui: Required"

/-- The clarification variant's `actions` key:
`z.array(z.never()).default([])` — absent defaults to `[]`, present must be
an empty array (any element fails `z.never`). -/
def parseClarActions (j : Json) : Except String Unit :=
  match j.getField "actions" with
  | none => .ok ()
  | some (.arr []) => .ok ()
  | some (.arr (_ :: _)) => .error "actions: Expected never, received value"
  | some _ => .error "actions: Expected array"

/-- `OrchestratorResponse`: the two-variant discriminated union. -/
inductive OrchestratorResponse where
  | clarification (explanation : String) (missing_fields : List String)
      (follow_up_question : String)
  | execute (explanation : String) (actions : List ParsedAction) (ui : ExecUi)

/-- `OrchestratorResponseSchema.parse` on a JSON tree: discriminate on
`mode`; the clarification variant requires string-typed `explanation`,
`missing_fields` (array of strings) and `follow_up_question` (no nonempty
constraints); the execute variant requires `actions` with at least one
schema-valid action and the required `ui`. -/
def validateOrchestratorResponse (j : Json) : Except String OrchestratorResponse :=
  match j.getField "mode" with
  | some (.str m) =>
    if m = "clarification_needed" then do
      let ex ← getStr j "explanation"
      let mf ← getStrList j "missing_fields"
      let q ← getStr j "follow_up_question"
      let _ ← parseClarActions j
      pure (.clarification ex mf q)
    else if m = "execute" then do
      let ex ← getStr j "explanation"
      let items ← match j.getField "actions" with
        | some (.arr items) => Except.ok items
        | some _ => Except.error "actions: Expected array"
        | none => Except.error "actions: Required"
      let acts ← match items with
        | [] => Except.error "actions: Array must contain at least 1 element(s)"
        | _ :: _ => parseActions items
      let ui ← parseExecUi j
      pure (.execute ex acts ui)
    else .error "mode: Invalid discriminator value"
  | some _ => .error "mode: Invalid discriminator value"
  | none => .error "mode: Required"

/-- `parseOrchestratorResponse` after `JSON.parse`: schema failures surface
as `Orchestrator response validation failed: ...`. -/
def parseOrchestratorResponseJson (j : Json) : Except String OrchestratorResponse :=
  (validateOrchestratorResponse j).mapError
    (fun m => "Orchestrator response validation failed: " ++ m)

/-- `isClarificationNeeded`. -/
def isClarificationNeeded : OrchestratorResponse → Bool
  | .clarification _ _ _ => true
  | .execute _ _ _ => false

/-- `isExecuteResponse`. -/
def isExecuteResponse : OrchestratorResponse → Bool
  | .clarification _ _ _ => false
  | .execute _ _ _ => true

/-- The spec's problematic clarification reply: well-formed JSON with an
empty missing-fields list and an empty follow-up question. -/
def clarEmptyJson : Json :=
  .obj [("mode", .str "clarification_needed"),
        ("explanation", .str "Need more info"),
        ("missing_fields", .arr []),
        ("follow_up_question", .str "")]

/-- C9 counterexample: the clarification schema carries no nonempty
constraint, so a clarification response whose missing-fields list is empty
and whose follow-up question is the empty string `passes` validation and is
returned, contradicting the claim that it is rejected with a schema error. -/
theorem parser_accepts_empty_clarification_counterexample :
    parseOrchestratorResponseJson clarEmptyJson =
      .ok (.clarification "Need more info" [] "") := by rfl

theorem strListOf_map (l : List String) : strListOf (l.map .str) = .ok l := by
  induction l with
  | nil => rfl
  | cons s rest ih => simp [strListOf, ih, Except.map]

/-- The execute-variant shape with explicit fields. -/
def mkExecJson (explanation : String) (actions : List Json) (ui : Json) : Json :=
  .obj [("mode", .str "execute"), ("explanation", .str explanation),
        ("actions", .arr actions), ("ui", ui)]

/-- The execute-variant shape with no `ui` key. -/
def mkExecJsonNoUi (explanation : String) (actions : List Json) : Json :=
  .obj [("mode", .str "execute"), ("explanation", .str explanation),
        ("actions", .arr actions)]

/-- The clarification-variant shape with explicit fields. -/
def mkClarJson (explanation : String) (missing : List String)
    (question : String) : Json :=
  .obj [("mode", .str "clarification_needed"),
        ("explanation", .str explanation),
        ("missing_fields", .arr (missing.map .str)),
        ("follow_up_question", .str question)]

/-- C9 (amended): validation rejects every execute-mode response with zero
actions, every execute-mode response with no UI hint, and every unknown
mode; the clarification variant is only type-checked — any explanation,
any (possibly empty) missing-fields list of strings and any (possibly
empty) follow-up question are accepted and returned as parsed. -/
theorem parser_two_variant_contract (ex q m : String) (mfs : List String)
    (acts : List Json) (ui : Json) :
    (parseOrchestratorResponseJson (mkExecJson ex [] ui)).isOk = false ∧
    (parseOrchestratorResponseJson (mkExecJsonNoUi ex acts)).isOk = false ∧
    parseOrchestratorResponseJson (mkClarJson ex mfs q) =
      .ok (.clarification ex mfs q) ∧
    (m ≠ "clarification_needed" → m ≠ "execute" →
      parseOrchestratorResponseJson (.obj [("mode", .str m)]) =
        .error ("Orchestrator response validation failed: " ++
          "mode: Invalid discriminator value")) := by
  refine ⟨?_, ?_, ?_, ?_⟩
  · rfl
  · show (parseOrchestratorResponseJson (mkExecJsonNoUi ex acts)).isOk = false
    simp only [parseOrchestratorResponseJson, validateOrchestratorResponse,
      mkExecJsonNoUi, Json.getField, lookupField]
    norm_num
    cases acts with
    | nil => rfl
    | cons a rest =>
      cases hpa : parseActions (a :: rest) with
      | error e => simp [hpa, Except.mapError, Except.isOk, Except.toBool,
          getStr, Json.getField, lookupField, Bind.bind, Except.bind]
      | ok as => simp [hpa, Except.mapError, Except.isOk, Except.toBool,
          getStr, Json.getField, lookupField, Bind.bind, Except.bind, parseExecUi]
  · simp [parseOrchestratorResponseJson, validateOrchestratorResponse,
      mkClarJson, Json.getField, lookupField, getStr, getStrList,
      strListOf_map, parseClarActions, Bind.bind, Except.bind,
      Except.mapError, pure, Except.pure]
  · intro h1 h2
    simp [parseOrchestratorResponseJson, validateOrchestratorResponse,
      Json.getField, lookupField, h1, h2, Except.mapError]

/-- Witness for the amended C9 at concrete responses. -/
theorem parser_two_variant_contract_witness :
    (parseOrchestratorResponseJson (mkExecJson "run" []
      (.obj [("render", .str "table"), ("summary", .str "s")]))).isOk = false ∧
    parseOrchestratorResponseJson
        (mkClarJson "Need budget" ["budget"] "What is the budget?") =
      .ok (.clarification "Need budget" ["budget"] "What is the budget?") ∧
    parseOrchestratorResponseJson (.obj [("mode", .str "unknown")]) =
      .error ("Orchestrator response validation failed: " ++
        "mode: Invalid discriminator value") :=
  have h := parser_two_variant_contract "Need budget" "What is the budget?"
    "unknown" ["budget"] []
    (.obj [("render", .str "table"), ("summary", .str "s")])
  have h1 := parser_two_variant_contract "run" "" "unknown" [] []
    (.obj [("render", .str "table"), ("summary", .str "s")])
  ⟨h1.1, h.2.2.1, h.2.2.2 (by decide) (by decide)⟩

/-! ## Orchestrator

From the orchestrator entry point (`orchestrate`): context precondition,
prompt construction, at most one retry with an appended strict-JSON
instruction, decided by substring-matching the error message. The LLM is an
oracle from prompt and attempt index to a reply; the trace records every
prompt actually sent. -/

/-- `OrchestrationContext` (JavaScript falsiness: an empty channel/lead id
is skipped like an absent one). -/
structure OrchestrationContext where
  agentId : String
  channel : Option String := none
  leadId : Option String := none
  previousMessages : List String := []

/-- `Array.prototype.join`. -/
def joinWith (sep : String) : List String → String
  | [] => ""
  | [x] => x
  | x :: rest => x ++ sep ++ joinWith sep rest

/-- `${idx + 1}. ${msg}` numbering of the previous messages. -/
def numberFrom (i : Nat) : List String → List String
  | [] => []
  | m :: rest => (toString i ++ ". " ++ m) :: numberFrom (i + 1) rest

/-- The context block appended to the user message: agent id always, then
channel, lead id and numbered previous messages when truthy/non-empty. -/
def buildContextParts (ctx : OrchestrationContext) : List String :=
  ["Agent ID: " ++ ctx.agentId]
    ++ (match ctx.channel with
        | some c => if c = "" then [] else ["Channel: " ++ c]
        | none => [])
    ++ (match ctx.leadId with
        | some l => if l = "" then [] else ["Lead ID: " ++ l]
        | none => [])
    ++ (match ctx.previousMessages with
        | [] => []
        | msgs => ["Previous messages:\n" ++ joinWith "\n" (numberFrom 1 msgs)])

/-- The outbound user message: instruction plus the context block. -/
def buildUserMessage (userInput : String) (ctx : OrchestrationContext) : String :=
  let parts := buildContextParts ctx
  if parts.length > 0 then
    userInput ++ "\n\nContext:\n" ++ joinWith "\n" parts
  else userInput

/-- One reply of the LLM collaborator: a thrown provider error, text that
`JSON.parse` rejects (with the syntax error's message), or parsed JSON. -/
inductive LlmReply where
  | provider (msg : String)
  | badJson (syntaxMsg : String)
  | json (j : Json)

/-- One call-and-parse attempt of the retry loop: provider errors propagate
as-is; `JSON.parse` failures and schema failures carry the parser's
prefixed messages. -/
def runAttempt : LlmReply → Except String OrchestratorResponse
  | .provider msg => .error msg
  | .badJson m => .error ("Failed to parse orchestrator response as JSON: " ++ m)
  | .json j => parseOrchestratorResponseJson j

/-- The retry heuristic: substring-match the error text against `parse`,
`validation` and `JSON`. -/
def retriable (msg : String) : Bool :=
  strIncludes msg "parse" || strIncludes msg "validation" || strIncludes msg "JSON"

/-- The corrective instruction appended to the prompt for the single retry. -/
def retryInstruction : String :=
  "\n\nIMPORTANT: Please respond with valid JSON only, following the exact response format specified. Do not include any markdown code blocks or additional text outside the JSON."

/-- `userInput.substring(0, n)`. -/
def strTake (s : String) (n : Nat) : String := ⟨s.data.take n⟩

/-- The fatal wrapper: `Orchestration failed: <cause>. Input: "<first 50
chars>..."`. -/
def orchFailMsg (e userInput : String) : String :=
  "Orchestration failed: " ++ e ++ ". Input: \"" ++ strTake userInput 50 ++ "...\""

/-- The observable outcome of one `orchestrate` call: the returned (or
thrown) value plus the prompts actually sent to the LLM collaborator, in
order. -/
structure OrchTrace where
  result : Except String OrchestratorResponse
  prompts : List String

/-- `orchestrate`: context precondition before any LLM call; first attempt;
on a retriable failure exactly one retry with the same prompt plus the
appended instruction; any failure after that is fatal with the wrapped
message. -/
def orchestrate (llm : String → Nat → LlmReply) (userInput : String)
    (ctx : OrchestrationContext) : OrchTrace :=
  if ctx.agentId = "" then
    ⟨.error "agentId is required in orchestration context", []⟩
  else
    let m0 := buildUserMessage userInput ctx
    match runAttempt (llm m0 0) with
    | .ok r => ⟨.ok r, [m0]⟩
    | .error e =>
      if retriable e then
        let m1 := m0 ++ retryInstruction
        match runAttempt (llm m1 1) with
        | .ok r => ⟨.ok r, [m0, m1]⟩
        | .error e2 => ⟨.error (orchFailMsg e2 userInput), [m0, m1]⟩
      else ⟨.error (orchFailMsg e userInput), [m0]⟩

/-- `validateInput`: the caller's pure precheck. -/
def validateInput (userInput : String) : Bool :=
  !(userInput.data.all Char.isWhitespace) && userInput.length ≤ 10000

theorem strIncludes_append_left (pre suf pat : String) (i : Nat)
    (hi : i ≤ pre.data.length)
    (h : pat.data.isPrefixOf (pre.data.drop i) = true) :
    strIncludes (pre ++ suf) pat = true := by
  unfold strIncludes
  rw [List.any_eq_true]
  refine ⟨i, ?_, ?_⟩
  · rw [List.mem_range]
    have hlen : (pre ++ suf).data.length = pre.data.length + suf.data.length := by
      rw [String.data_append, List.length_append]
    omega
  · rw [String.data_append, List.drop_append_eq_append_drop,
      Nat.sub_eq_zero_of_le hi, List.drop_zero]
    rw [List.isPrefixOf_iff_prefix] at h ⊢
    exact h.trans (List.prefix_append _ _)

theorem badJson_retriable (m : String) :
    retriable ("Failed to parse orchestrator response as JSON: " ++ m) = true := by
  unfold retriable
  have h := strIncludes_append_left "Failed to parse orchestrator response as JSON: "
    m "parse" 10 (by decide) (by decide)
  rw [h]
  rfl

theorem schema_error_retriable (m : String) :
    retriable ("Orchestrator response validation failed: " ++ m) = true := by
  unfold retriable
  have h := strIncludes_append_left "Orchestrator response validation failed: "
    m "validation" 22 (by decide) (by decide)
  rw [h]
  simp

theorem parse_error_retriable (j : Json) (e : String)
    (h : parseOrchestratorResponseJson j = .error e) : retriable e = true := by
  unfold parseOrchestratorResponseJson at h
  cases hv : validateOrchestratorResponse j with
  | ok r => rw [hv] at h; simp [Except.mapError] at h
  | error m =>
    rw [hv] at h
    simp only [Except.mapError, Except.error.injEq] at h
    rw [← h]
    exact schema_error_retriable m

/-- C8: when the context's actor id is missing/empty, `orchestrate` fails
immediately with the invalid-context error and the LLM collaborator is never
invoked (the prompt trace is empty). -/
theorem orchestrate_invalid_context (llm : String → Nat → LlmReply)
    (userInput : String) (ctx : OrchestrationContext) (h : ctx.agentId = "") :
    orchestrate llm userInput ctx =
      ⟨.error "agentId is required in orchestration context", []⟩ := by
  unfold orchestrate
  rw [if_pos h]

/-- Witness for C8 at a concrete instruction and empty-actor context. -/
theorem orchestrate_invalid_context_witness :
    orchestrate (fun _ _ => .json clarEmptyJson) "Add John to my CRM"
        { agentId := "" } =
      ⟨.error "agentId is required in orchestration context", []⟩ :=
  orchestrate_invalid_context (fun _ _ => .json clarEmptyJson)
    "Add John to my CRM" { agentId := "" } rfl

/-- C7: the LLM is invoked at most twice per `orchestrate` call; every
`JSON.parse` failure and every schema failure is retry-eligible under the
source's substring heuristic; a retriable first failure triggers exactly one
re-invocation with the same prompt plus the appended strict-JSON
instruction, after which a second failure is fatal with the wrapped message
carrying the truncated instruction, and a success is returned; a returned
response always comes from a successful parse of one of the two attempts —
never a malformed value. -/
theorem orchestrate_single_retry (llm : String → Nat → LlmReply)
    (userInput : String) (ctx : OrchestrationContext) (e e2 : String)
    (resp : OrchestratorResponse) :
    (orchestrate llm userInput ctx).prompts.length ≤ 2 ∧
    (∀ m : String,
      retriable ("Failed to parse orchestrator response as JSON: " ++ m) = true) ∧
    (∀ (j : Json) (e0 : String),
      parseOrchestratorResponseJson j = .error e0 → retriable e0 = true) ∧
    (ctx.agentId ≠ "" →
      runAttempt (llm (buildUserMessage userInput ctx) 0) = .error e →
      retriable e = true →
      (orchestrate llm userInput ctx).prompts =
        [buildUserMessage userInput ctx,
         buildUserMessage userInput ctx ++ retryInstruction] ∧
      (runAttempt (llm (buildUserMessage userInput ctx ++ retryInstruction) 1) =
          .error e2 →
        (orchestrate llm userInput ctx).result = .error (orchFailMsg e2 userInput)) ∧
      (runAttempt (llm (buildUserMessage userInput ctx ++ retryInstruction) 1) =
          .ok resp →
        (orchestrate llm userInput ctx).result = .ok resp)) ∧
    ((orchestrate llm userInput ctx).result = .ok resp →
      runAttempt (llm (buildUserMessage userInput ctx) 0) = .ok resp ∨
      runAttempt (llm (buildUserMessage userInput ctx ++ retryInstruction) 1) =
        .ok resp) := by
  by_cases hagent : ctx.agentId = ""
  · refine ⟨?_, badJson_retriable, parse_error_retriable, ?_, ?_⟩
    · rw [orchestrate_invalid_context llm userInput ctx hagent]
      decide
    · intro hne; exact absurd hagent hne
    · rw [orchestrate_invalid_context llm userInput ctx hagent]
      intro hok; cases hok
  · have horc : orchestrate llm userInput ctx =
        (let m0 := buildUserMessage userInput ctx
        match runAttempt (llm m0 0) with
        | .ok r => ⟨.ok r, [m0]⟩
        | .error e =>
          if retriable e then
            let m1 := m0 ++ retryInstruction
            match runAttempt (llm m1 1) with
            | .ok r => ⟨.ok r, [m0, m1]⟩
            | .error e2 => ⟨.error (orchFailMsg e2 userInput), [m0, m1]⟩
          else ⟨.error (orchFailMsg e userInput), [m0]⟩ : OrchTrace) := by
      unfold orchestrate
      rw [if_neg hagent]
    dsimp only at horc
    cases h0 : runAttempt (llm (buildUserMessage userInput ctx) 0) with
    | ok r =>
      rw [h0] at horc
      dsimp only at horc
      refine ⟨by rw [horc]; simp, badJson_retriable, parse_error_retriable, ?_, ?_⟩
      · intro _ habs
        exact absurd habs (by simp)
      · intro hres
        rw [horc] at hres
        exact Or.inl hres
    | error e0 =>
      rw [h0] at horc
      dsimp only at horc
      by_cases hret : retriable e0 = true
      · rw [if_pos hret] at horc
        cases h1 : runAttempt
            (llm (buildUserMessage userInput ctx ++ retryInstruction) 1) with
        | ok r =>
          rw [h1] at horc
          dsimp only at horc
          refine ⟨by rw [horc]; simp, badJson_retriable, parse_error_retriable,
            ?_, ?_⟩
          · intro _ he _
            refine ⟨by rw [horc], ?_, ?_⟩
            · intro habs
              exact absurd habs (by simp)
            · intro hok
              have hrr : r = resp := (Except.ok.injEq _ _).mp hok
              rw [horc, hrr]
          · intro hres
            rw [horc] at hres
            exact Or.inr hres
        | error e1 =>
          rw [h1] at horc
          dsimp only at horc
          refine ⟨by rw [horc]; simp, badJson_retriable, parse_error_retriable,
            ?_, ?_⟩
          · intro _ he _
            refine ⟨by rw [horc], ?_, ?_⟩
            · intro he2
              have h12 : e1 = e2 := (Except.error.injEq _ _).mp he2
              rw [horc, h12]
            · intro habs
              exact absurd habs (by simp)
          · intro hres
            rw [horc] at hres
            exact absurd hres (by simp)
      · rw [if_neg hret] at horc
        refine ⟨by rw [horc]; simp, badJson_retriable, parse_error_retriable,
          ?_, ?_⟩
        · intro _ he hr
          have he0 : e0 = e := (Except.error.injEq _ _).mp he
          rw [he0] at hret
          exact absurd hr hret
        · intro hres
          rw [horc] at hres
          exact absurd hres (by simp)

/-- Witness for C7: a model that answers non-JSON twice yields exactly two
prompts — the second being the first plus the strict-JSON instruction — and
a fatal wrapped failure. -/
theorem orchestrate_single_retry_witness :
    (orchestrate (fun _ _ => .badJson "Unexpected token") "Add John to my CRM"
        { agentId := "agent-1" }).prompts =
      [buildUserMessage "Add John to my CRM" { agentId := "agent-1" },
       buildUserMessage "Add John to my CRM" { agentId := "agent-1" } ++
         retryInstruction] ∧
    (orchestrate (fun _ _ => .badJson "Unexpected token") "Add John to my CRM"
        { agentId := "agent-1" }).result =
      .error (orchFailMsg
        "Failed to parse orchestrator response as JSON: Unexpected token"
        "Add John to my CRM") :=
  have h := orchestrate_single_retry (fun _ _ => .badJson "Unexpected token")
    "Add John to my CRM" { agentId := "agent-1" }
    "Failed to parse orchestrator response as JSON: Unexpected token"
    "Failed to parse orchestrator response as JSON: Unexpected token"
    (.clarification "" [] "")
  have h4 := h.2.2.2.1 (by decide) (by rfl) (by rfl)
  ⟨h4.1, h4.2.1 (by rfl)⟩
